import Mathlib

/-!
Verification development for the Cloudflare IP updater (src/Main.cpp).

The whole program is one C++ translation unit: a `main` that loads a
configuration (`CloudflareData` with a list of `DNS_Entry`), then runs an
infinite reconciliation loop.  Each loop iteration checks a millisecond
timer (bypassed on the first iteration via `first_run`), performs an HTTP
GET to an IP-echo service, extracts the IP from the response body by raw
string slicing, compares it against `old_ip_address`, and on a change
issues one HTTP PUT per configured entry, finally committing or rolling
back the baseline depending on whether any PUT failed.

The embedding below is a direct translation:
* C++ `std::string` becomes `String` (treated as a sequence of characters;
  the configuration and response bodies are ASCII in practice, so byte
  indices and character indices agree).
* `size_t` arithmetic in the slicing code is modelled on `Nat` with an
  explicit `% 2 ^ 64`, and `std::string::npos` is `2 ^ 64 - 1`.
* `int` produced by `std::stoi` is modelled on `Int` with the explicit
  32-bit range check (out-of-range throws, modelled as `none`).
* the `std::chrono` double-valued millisecond clock is modelled by integer
  millisecond readings; the loop only ever compares elapsed time against
  `update_rate * 1000`.
* network effects are modelled by an input oracle per iteration: the
  resolver response that a GET would return, and the status code each PUT
  would return, in order.
* an uncaught C++ exception (from `std::stoi` on a malformed TTL, or
  `std::string::substr` out of range) is the `StepResult.crash` outcome;
  everything else is `StepResult.next` with the successor state and the
  observable effects of the iteration.
-/

namespace CFUpdater

/-- Character-class test matching `std::isspace` in the default locale,
used by the extraction operators of `std::istringstream` and by
`std::stoi` when they skip leading whitespace. -/
def isSpaceChar (c : Char) : Bool :=
  c == ' ' || c == '\t' || c == '\n' || c == '\x0b' || c == '\x0c' || c == '\r'

/-- Value of a list of decimal digit characters, most significant first. -/
def digitsVal (ds : List Char) : Nat :=
  ds.foldl (fun a c => a * 10 + (c.toNat - 48)) 0

/-- Smallest value of a 32-bit `int`. -/
def INT_MIN : Int := -2147483648

/-- Largest value of a 32-bit `int`. -/
def INT_MAX : Int := 2147483647

/-- Model of `std::stoi` (Main.cpp line 263): skip leading whitespace, read
an optional sign and a maximal run of decimal digits.  `none` models a
thrown exception: `std::invalid_argument` when there is no digit, and
`std::out_of_range` when the value does not fit in a 32-bit `int`. -/
def stoiOpt (s : String) : Option Int :=
  let l1 := s.data.dropWhile isSpaceChar
  let signAndRest : Bool × List Char :=
    match l1 with
    | '-' :: rest => (true, rest)
    | '+' :: rest => (false, rest)
    | _ => (false, l1)
  let ds := signAndRest.2.takeWhile Char.isDigit
  if ds.isEmpty then none
  else
    let v : Int := (if signAndRest.1 then -1 else 1) * (digitsVal ds : Int)
    if v < INT_MIN ∨ INT_MAX < v then none else some v

/-- Model of the first extraction `is >> result` in `stob` (Main.cpp
line 58): a default-format `bool` read from an `std::istringstream`.  The
stream skips whitespace, consumes an optional sign and a maximal digit
run, and stores `false` for the value 0, `true` for 1, and `true` with the
fail state for any other numeric value; when no digit is present the read
fails and (per C++11) stores `false`.  The result is
`(stored value, failed, remaining stream contents)`. -/
def streamReadBoolNumeric (l : List Char) : Bool × Bool × List Char :=
  let l1 := l.dropWhile isSpaceChar
  let signAndRest : Bool × List Char :=
    match l1 with
    | '-' :: rest => (true, rest)
    | '+' :: rest => (false, rest)
    | _ => (false, l1)
  let ds := signAndRest.2.takeWhile Char.isDigit
  let rest := signAndRest.2.dropWhile Char.isDigit
  if ds.isEmpty then (false, true, signAndRest.2)
  else
    let v : Int := (if signAndRest.1 then -1 else 1) * (digitsVal ds : Int)
    if v = 0 then (false, false, rest)
    else if v = 1 then (true, false, rest)
    else (true, true, rest)

/-- Model of the second extraction `is >> std::boolalpha >> result` in
`stob` (Main.cpp line 63): skip whitespace, then match the textual names
`true` / `false` by maximal prefix; on no match the read fails and stores
`false`.  The result is `(stored value, failed)`. -/
def streamReadBoolAlpha (l : List Char) : Bool × Bool :=
  let l1 := l.dropWhile isSpaceChar
  if List.isPrefixOf "true".data l1 then (true, false)
  else if List.isPrefixOf "false".data l1 then (false, false)
  else (false, true)

/-- Combined two-phase read of `stob` (Main.cpp lines 54-64): the numeric
read, then on failure `is.clear()` and the `boolalpha` read from the
position where the numeric read stopped.  Returns the stored value and
whether both reads failed. -/
def stobCore (s : String) : Bool × Bool :=
  let numeric := streamReadBoolNumeric s.data
  if numeric.2.1 then streamReadBoolAlpha numeric.2.2
  else (numeric.1, false)

/-- Model of `stob` (Main.cpp lines 52-72).  `Except.error` models the
`std::invalid_argument` thrown when both reads fail and `throw_on_error`
is set. -/
def stob (s : String) (throw_on_error : Bool) : Except String Bool :=
  let r := stobCore s
  if r.2 && throw_on_error then
    Except.error (s ++ " is not convertable to bool")
  else
    Except.ok r.1

/-- Value computed by `stob(s, false)` as called at Main.cpp line 259;
by construction this call never throws. -/
def stobLenient (s : String) : Bool :=
  (stobCore s).1

/-- Configuration of one DNS record (Main.cpp lines 74-93).  All fields are
stored as strings, exactly as in the source; the C++ field `prefix` is
named `prefix_` here because `prefix` is a reserved word in Lean. -/
structure DNS_Entry where
  prefix_ : String
  type : String
  proxied : String
  ttl : String
  comment : String
  token : String
deriving DecidableEq

/-- The loaded configuration (Main.cpp lines 95-103). -/
structure CloudflareData where
  api_token : String
  dns_token : String
  dns_record : String
  entries : List DNS_Entry
deriving DecidableEq

/-- The JSON object built for one entry at Main.cpp lines 256-264: it has
exactly the seven fields listed there and no others. -/
structure Payload where
  content : String
  name : String
  proxied : Bool
  type : String
  comment : String
  id : String
  ttl : Int
deriving DecidableEq

/-- One PUT request of the update batch: the destination URL built at
Main.cpp line 266 and the JSON body. -/
structure UpdateCall where
  url : String
  body : Payload
deriving DecidableEq

/-- An HTTP response as the loop observes it: status code and body text
(`cpr::Response::status_code` is a `long`, modelled as `Int`; 0 denotes a
transport-level failure). -/
structure Response where
  status_code : Int
  text : String
deriving DecidableEq

/-- The mutable loop state of `main` (Main.cpp lines 152-154, 201, 203):
`ip_address` is the last observed IP (sentinel `"invalid"`),
`old_ip_address` the last committed baseline (sentinel `"0.0.0.0"`),
`first_run` the timer-bypass flag, and `timer_start` the anchor of the
current waiting period in milliseconds. -/
structure LoopState where
  ip_address : String
  old_ip_address : String
  first_run : Bool
  timer_start : Int
deriving DecidableEq

/-- Environment oracle for one loop iteration: the current clock reading
in milliseconds, the response the resolver GET would return, and the
status code the i-th PUT of this iteration would return. -/
structure CycleInput where
  now : Int
  resolver : Response
  updater : Nat → Int

/-- Observable effects of one loop iteration: whether the resolver GET was
issued, and the list of PUT requests issued, in order. -/
structure CycleEffects where
  resolverCalled : Bool
  updateCalls : List UpdateCall
deriving DecidableEq

/-- Outcome of one loop iteration: the successor state together with the
effects of the iteration, or a crash by uncaught exception. -/
inductive StepResult where
  | next (s : LoopState) (eff : CycleEffects) : StepResult
  | crash : StepResult
deriving DecidableEq

/-- Model of `std::string::find_first_of` with a single search character
(Main.cpp line 232): index of the first occurrence, `none` when absent
(the C++ call returns `npos`). -/
def find_first_of (l : List Char) (c : Char) : Option Nat :=
  match l with
  | [] => none
  | a :: rest => if a = c then some 0 else (find_first_of rest c).map (· + 1)

/-- The value `std::string::npos`, i.e. `size_t(-1)`. -/
def npos : Nat := 2 ^ 64 - 1

/-- IP extraction from the resolver response body (Main.cpp lines
231-233): `sub = json.substr(json.find_first_of(':') + 2)` followed by
`sub.substr(0, sub.length() - 2)`.  All index arithmetic is `size_t`
arithmetic modulo `2 ^ 64` (in particular `npos + 2` wraps to 1 when no
colon exists).  `substr(pos)` throws `std::out_of_range` when
`pos > size()`, modelled as `none`; `substr(0, count)` clamps `count` to
the string length, which `List.take` does natively. -/
def extractIP (json : String) : Option String :=
  let l := json.data
  let pos : Nat :=
    match find_first_of l ':' with
    | some i => i
    | none => npos
  let start := (pos + 2) % 2 ^ 64
  if start > l.length then none
  else
    let sub := l.drop start
    some (String.mk (sub.take ((sub.length + 2 ^ 64 - 2) % 2 ^ 64)))

/-- Destination URL of the PUT issued for one entry (Main.cpp line 266). -/
def mkRecordURL (data : CloudflareData) (e : DNS_Entry) : String :=
  data.dns_record ++ e.token

/-- The JSON body built for one entry (Main.cpp lines 256-264); `none`
models the uncaught `std::stoi` exception on a malformed TTL. -/
def buildPayload (ip : String) (e : DNS_Entry) : Option Payload :=
  match stoiOpt e.ttl with
  | none => none
  | some n =>
      some { content := ip, name := e.prefix_, proxied := stobLenient e.proxied,
             type := e.type, comment := e.comment, id := e.token, ttl := n }

/-- Sequential traversal that stops at the first failure, as the payload
construction loop at Main.cpp lines 254-267 does when `std::stoi`
throws. -/
def traverseOption {α β : Type} (f : α → Option β) : List α → Option (List β)
  | [] => some []
  | a :: l =>
    match f a with
    | none => none
    | some b =>
      match traverseOption f l with
      | none => none
      | some l' => some (b :: l')

/-- The full batch of PUT requests built for a new IP (Main.cpp lines
251-267): one request per configured entry, in configuration order. -/
def buildCalls (data : CloudflareData) (ip : String) : Option (List UpdateCall) :=
  traverseOption (fun e => (buildPayload ip e).map
    (fun p => { url := mkRecordURL data e, body := p })) data.entries

/-- The body of one loop iteration after the timer check (Main.cpp lines
225-318): resolver GET, IP extraction, change detection, update batch, and
commit/rollback.  The `error` flag is set when any PUT in the batch
returns a status other than 200 (lines 279-299); on failure
`ip_address` is reset to `"invalid"` and the baseline is untouched, on
full success the baseline advances (lines 302-309).  A resolver status
other than 200 resets `ip_address` to `"invalid"` (lines 311-316). -/
def runCycle (data : CloudflareData) (s : LoopState) (inp : CycleInput) : StepResult :=
  if inp.resolver.status_code = 200 then
    match extractIP inp.resolver.text with
    | none => StepResult.crash
    | some ip =>
      if ip = s.old_ip_address then
        StepResult.next { s with ip_address := ip }
          { resolverCalled := true, updateCalls := [] }
      else
        match buildCalls data ip with
        | none => StepResult.crash
        | some calls =>
          if (List.range calls.length).any (fun i => inp.updater i != 200) then
            StepResult.next { s with ip_address := "invalid" }
              { resolverCalled := true, updateCalls := calls }
          else
            StepResult.next { s with ip_address := ip, old_ip_address := ip }
              { resolverCalled := true, updateCalls := calls }
  else
    StepResult.next { s with ip_address := "invalid" }
      { resolverCalled := true, updateCalls := [] }

/-- One full iteration of `while (active)` (Main.cpp lines 205-319): on
the first iteration the timer check is bypassed and `first_run` cleared
(lines 220-223); afterwards an iteration with elapsed time strictly below
`update_rate * 1000` milliseconds is a pure `continue` with no network
activity (lines 209-214), and otherwise the anchor is reset to the current
time (line 217) and the cycle body runs. -/
def loopStep (data : CloudflareData) (update_rate : Nat) (s : LoopState)
    (inp : CycleInput) : StepResult :=
  if s.first_run then
    runCycle data { s with first_run := false } inp
  else if inp.now - s.timer_start < (update_rate : Int) * 1000 then
    StepResult.next s { resolverCalled := false, updateCalls := [] }
  else
    runCycle data { s with timer_start := inp.now } inp

/-- Default polling interval in seconds (Main.cpp line 156), used when no
`-r` option is supplied. -/
def update_rate_default : Nat := 30

/-- Model of `main` up to the loop (Main.cpp lines 181-187): when
`LoadData` fails the process exits with code 0 after the error log;
otherwise control reaches the loop (`none` = no pre-loop exit). -/
def mainPreloop (loadOk : Bool) : Option Nat :=
  if loadOk then none else some 0

/-- Iterated `loopStep` over a finite prefix of environment inputs;
`none` when some iteration crashes.  The loop itself has no exit: `active`
is never written, and the body contains no `break` or `return`. -/
def runLoop (data : CloudflareData) (update_rate : Nat) :
    LoopState → List CycleInput → Option LoopState
  | s, [] => some s
  | s, inp :: rest =>
    match loopStep data update_rate s inp with
    | StepResult.next s' _ => runLoop data update_rate s' rest
    | StepResult.crash => none

/-- Iterated `runCycle` over consecutive executed cycles, accumulating the
total number of PUT requests issued. -/
def runCycles (data : CloudflareData) :
    LoopState → List CycleInput → Option (LoopState × Nat)
  | s, [] => some (s, 0)
  | s, inp :: rest =>
    match runCycle data s inp with
    | StepResult.next s' eff =>
      match runCycles data s' rest with
      | some (sf, n) => some (sf, eff.updateCalls.length + n)
      | none => none
    | StepResult.crash => none

/-- The loop state at entry of the loop (Main.cpp lines 152-154, 201,
203), with the initial clock reading `t0`. -/
def initState (t0 : Int) : LoopState :=
  { ip_address := "invalid", old_ip_address := "0.0.0.0",
    first_run := true, timer_start := t0 }

/-- Concrete configuration entry used to exercise the theorems below on a
closed instance. -/
def sampleEntry : DNS_Entry :=
  { prefix_ := "home", type := "A", proxied := "true", ttl := "120",
    comment := "main record", token := "tok1" }

/-- Concrete loaded configuration with a single entry. -/
def sampleData : CloudflareData :=
  { api_token := "apiTok", dns_token := "dnsTok",
    dns_record := "https://api.cloudflare.com/client/v4/zones/Z/dns_records/",
    entries := [sampleEntry] }

/-- The PUT request that `sampleEntry` produces for the IP `1.2.3.4`. -/
def sampleCall : UpdateCall :=
  { url := "https://api.cloudflare.com/client/v4/zones/Z/dns_records/tok1",
    body := { content := "1.2.3.4", name := "home", proxied := true,
              type := "A", comment := "main record", id := "tok1", ttl := 120 } }

/-- A resolver response body of the shape the ipify service returns. -/
def goodBody : String := "\x7b\"ip\":\"1.2.3.4\"\x7d"

/-- A loop state past the first iteration with the initial IP sentinels. -/
def sampleState : LoopState :=
  { ip_address := "invalid", old_ip_address := "0.0.0.0",
    first_run := false, timer_start := 0 }

/-- Environment where the resolver succeeds and every PUT returns 200. -/
def inputOK : CycleInput :=
  { now := 100000, resolver := { status_code := 200, text := goodBody },
    updater := fun _ => 200 }

/-- Environment where the resolver succeeds and every PUT returns 530. -/
def inputFail : CycleInput :=
  { now := 100000, resolver := { status_code := 200, text := goodBody },
    updater := fun _ => 530 }

/-- Environment where the resolver GET itself fails (status 0, transport
error). -/
def inputDown : CycleInput :=
  { now := 100000, resolver := { status_code := 0, text := "" },
    updater := fun _ => 200 }

/-- Environment where the resolver returns the already-committed baseline
IP `0.0.0.0`. -/
def inputSame : CycleInput :=
  { now := 100000, resolver := { status_code := 200, text := "\x7b\"ip\":\"0.0.0.0\"\x7d" },
    updater := fun _ => 200 }

/-- Empty configuration, used for the first-iteration counterexample. -/
def cexData : CloudflareData :=
  { api_token := "", dns_token := "", dns_record := "", entries := [] }

/-- Environment at clock 0, i.e. zero elapsed time since the anchor. -/
def cexInput : CycleInput :=
  { now := 0, resolver := { status_code := 200, text := "\x7b\"ip\":\"1.2.3.4\"\x7d" },
    updater := fun _ => 200 }

theorem runCycle_batch (data : CloudflareData) (s : LoopState) (inp : CycleInput)
    (r : String) (calls : List UpdateCall)
    (h200 : inp.resolver.status_code = 200)
    (hext : extractIP inp.resolver.text = some r)
    (hne : r ≠ s.old_ip_address)
    (hcalls : buildCalls data r = some calls) :
    runCycle data s inp =
      if (List.range calls.length).any (fun i => inp.updater i != 200) then
        StepResult.next { s with ip_address := "invalid" }
          { resolverCalled := true, updateCalls := calls }
      else
        StepResult.next { s with ip_address := r, old_ip_address := r }
          { resolverCalled := true, updateCalls := calls } := by
  unfold runCycle
  rw [if_pos h200, hext]
  simp only [if_neg hne, hcalls]

theorem runCycle_next_inv (data : CloudflareData) (s : LoopState) (inp : CycleInput)
    (s' : LoopState) (eff : CycleEffects)
    (h : runCycle data s inp = StepResult.next s' eff) :
    eff.resolverCalled = true ∧ s'.first_run = s.first_run ∧
      s'.timer_start = s.timer_start := by
  unfold runCycle at h
  split at h
  · split at h
    · exact absurd h (by simp)
    · split at h
      · cases h
        exact ⟨rfl, rfl, rfl⟩
      · split at h
        · exact absurd h (by simp)
        · split at h
          · cases h
            exact ⟨rfl, rfl, rfl⟩
          · cases h
            exact ⟨rfl, rfl, rfl⟩
  · cases h
    exact ⟨rfl, rfl, rfl⟩

theorem traverseOption_length {α β : Type} (f : α → Option β) :
    ∀ (l : List α) (l' : List β), traverseOption f l = some l' → l'.length = l.length := by
  intro l
  induction l with
  | nil => intro l' h; cases h; rfl
  | cons a t ih =>
    intro l' h
    unfold traverseOption at h
    cases hfa : f a with
    | none => rw [hfa] at h; cases h
    | some b =>
      rw [hfa] at h
      cases ht : traverseOption f t with
      | none => rw [ht] at h; cases h
      | some t' =>
        rw [ht] at h
        cases h
        simp [ih t' ht]

theorem traverseOption_getElem {α β : Type} (f : α → Option β) :
    ∀ (l : List α) (l' : List β), traverseOption f l = some l' →
      ∀ i : Nat, l'[i]? = (l[i]?).bind f := by
  intro l
  induction l with
  | nil => intro l' h i; cases h; simp
  | cons a t ih =>
    intro l' h i
    unfold traverseOption at h
    cases hfa : f a with
    | none => rw [hfa] at h; cases h
    | some b =>
      rw [hfa] at h
      cases ht : traverseOption f t with
      | none => rw [ht] at h; cases h
      | some t' =>
        rw [ht] at h
        cases h
        cases i with
        | zero => simp [hfa]
        | succ j => simpa using ih t' ht j

theorem traverseOption_total {α β : Type} (f : α → Option β) :
    ∀ (l : List α), (∀ a ∈ l, (f a).isSome) → ∃ l', traverseOption f l = some l' := by
  intro l
  induction l with
  | nil => intro _; exact ⟨[], rfl⟩
  | cons a t ih =>
    intro h
    obtain ⟨b, hb⟩ := Option.isSome_iff_exists.mp (h a (by simp))
    obtain ⟨t', ht⟩ := ih (fun x hx => h x (by simp [hx]))
    exact ⟨b :: t', by unfold traverseOption; rw [hb, ht]⟩

theorem buildCalls_total (data : CloudflareData) (ip : String)
    (httl : ∀ e ∈ data.entries, (stoiOpt e.ttl).isSome) :
    ∃ calls, buildCalls data ip = some calls := by
  apply traverseOption_total
  intro e he
  obtain ⟨n, hn⟩ := Option.isSome_iff_exists.mp (httl e he)
  simp [buildPayload, hn]

theorem batchError_iff (u : Nat → Int) (n : Nat) :
    (List.range n).any (fun i => u i != 200) = true ↔ ∃ i < n, u i ≠ 200 := by
  simp [List.any_eq_true, List.mem_range]

theorem streamReadBoolAlpha_failed_val (l : List Char)
    (h : (streamReadBoolAlpha l).2 = true) : (streamReadBoolAlpha l).1 = false := by
  simp only [streamReadBoolAlpha] at h ⊢
  by_cases h1 : ['t', 'r', 'u', 'e'].isPrefixOf (List.dropWhile isSpaceChar l) = true
  · rw [if_pos h1] at h
    cases h
  · rw [if_neg h1] at h ⊢
    by_cases h2 : ['f', 'a', 'l', 's', 'e'].isPrefixOf (List.dropWhile isSpaceChar l) = true
    · rw [if_pos h2] at h
      cases h
    · rw [if_neg h2]

theorem runCycle_no_crash (data : CloudflareData) (s : LoopState) (inp : CycleInput)
    (httl : ∀ e ∈ data.entries, (stoiOpt e.ttl).isSome)
    (hbody : inp.resolver.status_code = 200 → (extractIP inp.resolver.text).isSome) :
    ∃ s' eff, runCycle data s inp = StepResult.next s' eff := by
  unfold runCycle
  by_cases h200 : inp.resolver.status_code = 200
  · obtain ⟨r, hr⟩ := Option.isSome_iff_exists.mp (hbody h200)
    rw [if_pos h200, hr]
    by_cases heq : r = s.old_ip_address
    · simp only [if_pos heq]
      exact ⟨_, _, rfl⟩
    · simp only [if_neg heq]
      obtain ⟨calls, hc⟩ := buildCalls_total data r httl
      simp only [hc]
      split
      · exact ⟨_, _, rfl⟩
      · exact ⟨_, _, rfl⟩
  · rw [if_neg h200]
    exact ⟨_, _, rfl⟩

theorem runLoop_total (data : CloudflareData) (rate : Nat)
    (httl : ∀ e ∈ data.entries, (stoiOpt e.ttl).isSome) :
    ∀ inputs : List CycleInput, ∀ s : LoopState,
      (∀ inp ∈ inputs, inp.resolver.status_code = 200 →
        (extractIP inp.resolver.text).isSome) →
      ∃ sf, runLoop data rate s inputs = some sf := by
  intro inputs
  induction inputs with
  | nil => intro s _; exact ⟨s, rfl⟩
  | cons inp rest ih =>
    intro s hbody
    have hrc : ∀ t : LoopState, ∃ s' eff, runCycle data t inp = StepResult.next s' eff :=
      fun t => runCycle_no_crash data t inp httl (hbody inp (by simp))
    have hstep : ∃ s' eff, loopStep data rate s inp = StepResult.next s' eff := by
      unfold loopStep
      by_cases hf : s.first_run = true
      · rw [if_pos hf]
        exact hrc _
      · rw [if_neg hf]
        by_cases hlt : inp.now - s.timer_start < (rate : Int) * 1000
        · rw [if_pos hlt]
          exact ⟨_, _, rfl⟩
        · rw [if_neg hlt]
          exact hrc _
    obtain ⟨s', eff, heq⟩ := hstep
    obtain ⟨sf, hsf⟩ := ih s' (fun i hi => hbody i (by simp [hi]))
    refine ⟨sf, ?_⟩
    simp only [runLoop, heq, hsf]

/-- C1: in a cycle that issues an update batch for a new IP, the baseline
`old_ip_address` is set to that IP exactly when every PUT of the batch
returned status 200; on any failure the baseline is untouched,
`ip_address` is reset to the sentinel `invalid`, and a later cycle that
resolves the same IP issues the same batch again. -/
theorem c1_commit_iff_batch_success (data : CloudflareData) (s : LoopState)
    (inp : CycleInput) (r : String) (calls : List UpdateCall)
    (h200 : inp.resolver.status_code = 200)
    (hext : extractIP inp.resolver.text = some r)
    (hne : r ≠ s.old_ip_address)
    (hcalls : buildCalls data r = some calls) :
    ∃ s', runCycle data s inp = StepResult.next s'
        { resolverCalled := true, updateCalls := calls } ∧
      (s'.old_ip_address = r ↔ ∀ i < calls.length, inp.updater i = 200) ∧
      ((∃ i < calls.length, inp.updater i ≠ 200) →
        s'.old_ip_address = s.old_ip_address ∧ s'.ip_address = "invalid" ∧
        ∀ inp2 : CycleInput, inp2.resolver.status_code = 200 →
          extractIP inp2.resolver.text = some r →
          ∃ s2, runCycle data s' inp2 = StepResult.next s2
            { resolverCalled := true, updateCalls := calls }) := by
  rw [runCycle_batch data s inp r calls h200 hext hne hcalls]
  by_cases herr : (List.range calls.length).any (fun i => inp.updater i != 200) = true
  · rw [if_pos herr]
    obtain ⟨i, hi, hne200⟩ := (batchError_iff _ _).mp herr
    refine ⟨_, rfl, ?_, ?_⟩
    · simp only [show ({ s with ip_address := "invalid" } : LoopState).old_ip_address
        = s.old_ip_address from rfl]
      constructor
      · intro h; exact absurd h.symm hne
      · intro hall; exact absurd (hall i hi) hne200
    · intro _
      refine ⟨rfl, rfl, ?_⟩
      intro inp2 h200' hext'
      rw [runCycle_batch data { s with ip_address := "invalid" } inp2 r calls h200' hext' hne hcalls]
      by_cases herr2 : (List.range calls.length).any (fun i => inp2.updater i != 200) = true
      · rw [if_pos herr2]; exact ⟨_, rfl⟩
      · rw [if_neg herr2]; exact ⟨_, rfl⟩
  · rw [if_neg herr]
    refine ⟨_, rfl, ?_, ?_⟩
    · simp only [show ({ s with ip_address := r, old_ip_address := r } : LoopState).old_ip_address
        = r from rfl]
      simp only [true_iff, eq_self_iff_true]
      intro i hi
      by_contra hcon
      exact herr ((batchError_iff _ _).mpr ⟨i, hi, hcon⟩)
    · intro ⟨i, hi, hne200⟩
      exact absurd ((batchError_iff _ _).mpr ⟨i, hi, hne200⟩) herr

/-- C1 witness: a one-entry batch where the single PUT fails with 530. -/
theorem c1_commit_iff_batch_success_witness :
    ∃ s', runCycle sampleData sampleState inputFail = StepResult.next s'
        { resolverCalled := true, updateCalls := [sampleCall] } ∧
      (s'.old_ip_address = "1.2.3.4" ↔ ∀ i < [sampleCall].length, inputFail.updater i = 200) ∧
      ((∃ i < [sampleCall].length, inputFail.updater i ≠ 200) →
        s'.old_ip_address = sampleState.old_ip_address ∧ s'.ip_address = "invalid" ∧
        ∀ inp2 : CycleInput, inp2.resolver.status_code = 200 →
          extractIP inp2.resolver.text = some "1.2.3.4" →
          ∃ s2, runCycle sampleData s' inp2 = StepResult.next s2
            { resolverCalled := true, updateCalls := [sampleCall] }) :=
  c1_commit_iff_batch_success sampleData sampleState inputFail "1.2.3.4" [sampleCall]
    (by decide) (by decide) (by decide) (by decide)

/-- C2: within one batch the updater is invoked exactly once per
configured entry, in configuration order, every request carries the same
new IP, and the list of issued requests does not depend on the statuses
the updater returns, so a failure on one entry never skips later
entries. -/
theorem c2_batch_order_no_short_circuit (data : CloudflareData) (s : LoopState)
    (inp : CycleInput) (r : String) (calls : List UpdateCall)
    (h200 : inp.resolver.status_code = 200)
    (hext : extractIP inp.resolver.text = some r)
    (hne : r ≠ s.old_ip_address)
    (hcalls : buildCalls data r = some calls) :
    calls.length = data.entries.length ∧
    (∀ i : Nat, calls[i]? = (data.entries[i]?).bind (fun e =>
      (buildPayload r e).map (fun p => { url := mkRecordURL data e, body := p }))) ∧
    (∀ i : Nat, ∀ e : DNS_Entry, data.entries[i]? = some e →
      ∃ p, buildPayload r e = some p ∧ p.content = r ∧
        calls[i]? = some { url := mkRecordURL data e, body := p }) ∧
    (∀ u2 : Nat → Int, ∃ s2, runCycle data s { inp with updater := u2 } =
      StepResult.next s2 { resolverCalled := true, updateCalls := calls }) := by
  refine ⟨traverseOption_length _ _ _ hcalls, fun i => traverseOption_getElem _ _ _ hcalls i, ?_, ?_⟩
  · intro i e he
    have hg := traverseOption_getElem _ _ _ hcalls i
    rw [he] at hg
    simp only [Option.some_bind] at hg
    have hlen : i < data.entries.length := by
      by_contra hout
      rw [List.getElem?_eq_none (by omega)] at he
      cases he
    have hlt : i < calls.length := by rw [traverseOption_length _ _ _ hcalls]; exact hlen
    cases hp : buildPayload r e with
    | none =>
      rw [hp] at hg
      simp only [Option.bind_some, Option.map_none'] at hg
      rw [List.getElem?_eq_none_iff] at hg
      omega
    | some p =>
      rw [hp] at hg
      refine ⟨p, rfl, ?_, by simpa using hg⟩
      unfold buildPayload at hp
      cases hn : stoiOpt e.ttl with
      | none => rw [hn] at hp; cases hp
      | some n => rw [hn] at hp; cases hp; rfl
  · intro u2
    rw [runCycle_batch data s { inp with updater := u2 } r calls h200 hext hne hcalls]
    split
    · exact ⟨_, rfl⟩
    · exact ⟨_, rfl⟩

/-- C2 witness: the one-entry batch of `sampleData` under an all-failing
updater. -/
theorem c2_batch_order_no_short_circuit_witness :
    [sampleCall].length = sampleData.entries.length ∧
    (∀ i : Nat, [sampleCall][i]? = (sampleData.entries[i]?).bind (fun e =>
      (buildPayload "1.2.3.4" e).map (fun p => { url := mkRecordURL sampleData e, body := p }))) ∧
    (∀ i : Nat, ∀ e : DNS_Entry, sampleData.entries[i]? = some e →
      ∃ p, buildPayload "1.2.3.4" e = some p ∧ p.content = "1.2.3.4" ∧
        [sampleCall][i]? = some { url := mkRecordURL sampleData e, body := p }) ∧
    (∀ u2 : Nat → Int, ∃ s2, runCycle sampleData sampleState { inputFail with updater := u2 } =
      StepResult.next s2 { resolverCalled := true, updateCalls := [sampleCall] }) :=
  c2_batch_order_no_short_circuit sampleData sampleState inputFail "1.2.3.4" [sampleCall]
    (by decide) (by decide) (by decide) (by decide)

/-- C3: when the resolver succeeds and the parsed IP equals the committed
baseline, no PUT is issued and the baseline is untouched, and this holds
over arbitrarily many consecutive such cycles: the total number of PUT
requests stays zero and the only state field written is `ip_address`,
which receives the (identical) resolved value. -/
theorem c3_unchanged_idempotent (data : CloudflareData) (s : LoopState)
    (inputs : List CycleInput)
    (h : ∀ inp ∈ inputs, inp.resolver.status_code = 200 ∧
      extractIP inp.resolver.text = some s.old_ip_address) :
    ∃ sf, runCycles data s inputs = some (sf, 0) ∧
      sf.old_ip_address = s.old_ip_address ∧
      (inputs ≠ [] → sf.ip_address = s.old_ip_address) := by
  induction inputs generalizing s with
  | nil => exact ⟨s, rfl, rfl, fun hc => absurd rfl hc⟩
  | cons inp rest ih =>
    obtain ⟨h200, hext⟩ := h inp (by simp)
    have hstep : runCycle data s inp = StepResult.next
        { s with ip_address := s.old_ip_address }
        { resolverCalled := true, updateCalls := [] } := by
      unfold runCycle
      rw [if_pos h200, hext]
      simp
    obtain ⟨sf, hr, ho, hi⟩ := ih { s with ip_address := s.old_ip_address }
      (fun i hi => h i (by simp [hi]))
    refine ⟨sf, ?_, ho, fun _ => ?_⟩
    · simp only [runCycles, hstep, hr]
      rfl
    · cases hre : rest with
      | nil => rw [hre] at hr; cases hr; rfl
      | cons a t => exact hi (by rw [hre]; simp)

/-- C3 witness: two consecutive cycles resolving the already-committed
baseline `0.0.0.0`. -/
theorem c3_unchanged_idempotent_witness :
    ∃ sf, runCycles sampleData sampleState [inputSame, inputSame] = some (sf, 0) ∧
      sf.old_ip_address = sampleState.old_ip_address ∧
      ([inputSame, inputSame] ≠ [] → sf.ip_address = sampleState.old_ip_address) :=
  c3_unchanged_idempotent sampleData sampleState [inputSame, inputSame] (by decide)

/-- C4: when the resolver GET returns a non-success status the cycle
issues no PUT, leaves the baseline untouched, resets `ip_address` to the
sentinel `invalid`, and produces a successor state (the loop continues,
no termination). -/
theorem c4_resolver_failure (data : CloudflareData) (s : LoopState) (inp : CycleInput)
    (h : inp.resolver.status_code ≠ 200) :
    ∃ s', runCycle data s inp = StepResult.next s'
        { resolverCalled := true, updateCalls := [] } ∧
      s'.old_ip_address = s.old_ip_address ∧ s'.ip_address = "invalid" := by
  refine ⟨{ s with ip_address := "invalid" }, ?_, rfl, rfl⟩
  unfold runCycle
  rw [if_neg h]

/-- C4 witness: a transport-level resolver failure (status 0). -/
theorem c4_resolver_failure_witness :
    ∃ s', runCycle sampleData sampleState inputDown = StepResult.next s'
        { resolverCalled := true, updateCalls := [] } ∧
      s'.old_ip_address = sampleState.old_ip_address ∧ s'.ip_address = "invalid" :=
  c4_resolver_failure sampleData sampleState inputDown (by decide)

/-- C5 counterexample: on the very first loop iteration the elapsed time
since the anchor is 0, strictly below the 30 second default interval, yet
the resolver is called and a full cycle executes, refuting the claim that
a cycle is triggered only when the elapsed time reaches the interval. -/
theorem c5_first_iteration_cex :
    cexInput.now - (initState 0).timer_start < ((30 : Nat) : Int) * 1000 ∧
    loopStep cexData 30 (initState 0) cexInput =
      StepResult.next { ip_address := "1.2.3.4", old_ip_address := "1.2.3.4",
                        first_run := false, timer_start := 0 }
        { resolverCalled := true, updateCalls := [] } :=
  ⟨by decide, by decide⟩

/-- C5 amended: from the second iteration onward (that is, once
`first_run` is cleared) a cycle is triggered exactly when the elapsed time
since the anchor is at least `update_rate * 1000` milliseconds, where the
default rate is 30 seconds; below the threshold the iteration performs no
network activity and changes nothing, and when a cycle does execute the
anchor is reset to the current time. -/
theorem c5_timer_gate (data : CloudflareData) (rate : Nat) (s : LoopState)
    (inp : CycleInput) (h : s.first_run = false) :
    update_rate_default = 30 ∧
    (inp.now - s.timer_start < (rate : Int) * 1000 →
      loopStep data rate s inp =
        StepResult.next s { resolverCalled := false, updateCalls := [] }) ∧
    (¬ inp.now - s.timer_start < (rate : Int) * 1000 →
      loopStep data rate s inp = runCycle data { s with timer_start := inp.now } inp) := by
  refine ⟨rfl, ?_, ?_⟩
  · intro hlt
    unfold loopStep
    rw [if_neg (by rw [h]; exact Bool.false_ne_true), if_pos hlt]
  · intro hge
    unfold loopStep
    rw [if_neg (by rw [h]; exact Bool.false_ne_true), if_neg hge]

/-- C5 witness: a non-first iteration at 100 seconds elapsed with rate
30. -/
theorem c5_timer_gate_witness :
    update_rate_default = 30 ∧
    (inputOK.now - sampleState.timer_start < ((30 : Nat) : Int) * 1000 →
      loopStep sampleData 30 sampleState inputOK =
        StepResult.next sampleState { resolverCalled := false, updateCalls := [] }) ∧
    (¬ inputOK.now - sampleState.timer_start < ((30 : Nat) : Int) * 1000 →
      loopStep sampleData 30 sampleState inputOK =
        runCycle sampleData { sampleState with timer_start := inputOK.now } inputOK) :=
  c5_timer_gate sampleData 30 sampleState inputOK (by decide)

/-- C6: the i-th request of a batch goes to the configured base record
path concatenated with the token of the i-th entry, and its JSON body has
exactly the fields content (the new IP), name (the entry field `prefix`),
proxied (parsed leniently to `Bool`), type, comment, id (the token), and
ttl (the TTL string converted to an integer), under the precondition that
the TTL string converts. -/
theorem c6_payload_and_url (data : CloudflareData) (ip : String) (calls : List UpdateCall)
    (hcalls : buildCalls data ip = some calls) :
    ∀ i : Nat, ∀ e : DNS_Entry, ∀ n : Int,
      data.entries[i]? = some e → stoiOpt e.ttl = some n →
      calls[i]? = some { url := data.dns_record ++ e.token,
                         body := { content := ip, name := e.prefix_,
                                   proxied := stobLenient e.proxied, type := e.type,
                                   comment := e.comment, id := e.token, ttl := n } } := by
  intro i e n he hn
  have hg := traverseOption_getElem _ _ _ hcalls i
  rw [he] at hg
  rw [hg]
  simp only [Option.some_bind]
  unfold buildPayload
  rw [hn]
  rfl

/-- C6 witness: the single request built from `sampleEntry` for the IP
`1.2.3.4`. -/
theorem c6_payload_and_url_witness :
    [sampleCall][0]? = some { url := sampleData.dns_record ++ sampleEntry.token,
                              body := { content := "1.2.3.4", name := sampleEntry.prefix_,
                                        proxied := stobLenient sampleEntry.proxied,
                                        type := sampleEntry.type,
                                        comment := sampleEntry.comment,
                                        id := sampleEntry.token, ttl := 120 } } :=
  c6_payload_and_url sampleData "1.2.3.4" [sampleCall] (by decide) 0 sampleEntry 120
    (by decide) (by decide)

/-- C7: the proxy-flag parse as invoked by the loop, `stob(s, false)`,
never throws for any input string, and when the input is convertible
neither by the numeric read nor by the boolalpha read the stored result is
`false`. -/
theorem c7_stob_lenient (s : String)
    (hnum : (streamReadBoolNumeric s.data).2.1 = true)
    (halpha : (streamReadBoolAlpha (streamReadBoolNumeric s.data).2.2).2 = true) :
    (∀ t : String, stob t false = Except.ok (stobLenient t)) ∧
    stob s false = Except.ok false := by
  have hok : ∀ t : String, stob t false = Except.ok (stobLenient t) := by
    intro t
    simp only [stob, stobLenient, Bool.and_false]
    rfl
  refine ⟨hok, ?_⟩
  rw [hok s]
  unfold stobLenient
  simp only [stobCore]
  rw [if_pos hnum, streamReadBoolAlpha_failed_val _ halpha]

/-- C7 witness: the string `abc` fails both reads and parses to
`false` without an error. -/
theorem c7_stob_lenient_witness :
    (∀ t : String, stob t false = Except.ok (stobLenient t)) ∧
    stob "abc" false = Except.ok false :=
  c7_stob_lenient "abc" (by decide) (by decide)

/-- C8: a configuration-load failure exits the process with code 0 before
the loop starts, a successful load reaches the loop, and once entered the
loop never terminates: for every finite input sequence in which 200
resolver responses have extractable bodies (and under the configuration
precondition that every TTL converts) the loop always has a next state,
whatever resolver failures or PUT failures occur. -/
theorem c8_exit_only_on_config_failure (data : CloudflareData) (rate : Nat)
    (s : LoopState) (inputs : List CycleInput)
    (httl : ∀ e ∈ data.entries, (stoiOpt e.ttl).isSome)
    (hbody : ∀ inp ∈ inputs, inp.resolver.status_code = 200 →
      (extractIP inp.resolver.text).isSome) :
    mainPreloop false = some 0 ∧ mainPreloop true = none ∧
    ∃ sf, runLoop data rate s inputs = some sf :=
  ⟨rfl, rfl, runLoop_total data rate httl inputs s hbody⟩

/-- C8 witness: three iterations mixing a transport failure, a failing
batch and a successful batch. -/
theorem c8_exit_only_on_config_failure_witness :
    mainPreloop false = some 0 ∧ mainPreloop true = none ∧
    ∃ sf, runLoop sampleData 30 (initState 0) [inputDown, inputFail, inputOK] = some sf :=
  c8_exit_only_on_config_failure sampleData 30 (initState 0) [inputDown, inputFail, inputOK]
    (by decide) (by decide)

/-- C9: on the first loop iteration the timer check is bypassed: the step
is exactly the cycle body with `first_run` cleared, regardless of the
clock, and the resolver GET is issued in every non-crashing outcome; from
then on `first_run` is `false`, and for such states a below-interval
iteration is a pure wait with no network activity. -/
theorem c9_first_run_bypass (data : CloudflareData) (rate : Nat) (s : LoopState)
    (inp : CycleInput) (h : s.first_run = true) :
    loopStep data rate s inp = runCycle data { s with first_run := false } inp ∧
    (∀ s' eff, runCycle data { s with first_run := false } inp = StepResult.next s' eff →
      eff.resolverCalled = true ∧ s'.first_run = false) ∧
    (∀ t : LoopState, ∀ inp2 : CycleInput, t.first_run = false →
      inp2.now - t.timer_start < (rate : Int) * 1000 →
      loopStep data rate t inp2 =
        StepResult.next t { resolverCalled := false, updateCalls := [] }) := by
  refine ⟨?_, ?_, ?_⟩
  · unfold loopStep
    rw [if_pos h]
  · intro s' eff hrc
    obtain ⟨h1, h2, _⟩ := runCycle_next_inv data _ inp s' eff hrc
    exact ⟨h1, h2⟩
  · intro t inp2 ht hlt
    unfold loopStep
    rw [if_neg (by rw [ht]; exact Bool.false_ne_true), if_pos hlt]

/-- C9 witness: a fresh state with `first_run` set, at 100 seconds of
clock time. -/
theorem c9_first_run_bypass_witness :
    loopStep sampleData 30 (initState 5) inputOK =
      runCycle sampleData { initState 5 with first_run := false } inputOK ∧
    (∀ s' eff, runCycle sampleData { initState 5 with first_run := false } inputOK =
        StepResult.next s' eff →
      eff.resolverCalled = true ∧ s'.first_run = false) ∧
    (∀ t : LoopState, ∀ inp2 : CycleInput, t.first_run = false →
      inp2.now - t.timer_start < ((30 : Nat) : Int) * 1000 →
      loopStep sampleData 30 t inp2 =
        StepResult.next t { resolverCalled := false, updateCalls := [] }) :=
  c9_first_run_bypass sampleData 30 (initState 5) inputOK (by decide)

/-- C10: the IP is extracted from a 200 response body by raw slicing with
no validation: for a body of exactly the shape produced by the ipify
service the extracted IP is the quoted value, and in general whenever the
body contains a colon the result is the verbatim substring starting two
characters after it with the last two characters dropped, whatever its
content. -/
theorem c10_extract_is_raw_slice :
    (∀ X : String, X.length < 2 ^ 64 →
      extractIP ("\x7b\"ip\":\"" ++ X ++ "\"\x7d") = some X) ∧
    (∀ json : String, ∀ i : Nat, find_first_of json.data ':' = some i →
      i + 2 ≤ json.data.length → i + 2 < 2 ^ 64 →
      extractIP json = some (String.mk ((json.data.drop (i + 2)).take
        (((json.data.drop (i + 2)).length + 2 ^ 64 - 2) % 2 ^ 64)))) := by
  constructor
  · intro X hX
    obtain ⟨xl⟩ := X
    show extractIP
      ⟨'\x7b' :: '\"' :: 'i' :: 'p' :: '\"' :: ':' :: '\"' :: (xl ++ ['\"', '\x7d'])⟩ =
        some ⟨xl⟩
    simp only [extractIP]
    have hfind : find_first_of
        ('\x7b' :: '\"' :: 'i' :: 'p' :: '\"' :: ':' :: '\"' :: (xl ++ ['\"', '\x7d'])) ':' =
        some 5 := by
      simp [find_first_of]
    rw [hfind]
    have h7 : (5 + 2) % 2 ^ 64 = 7 := by norm_num
    rw [h7]
    rw [if_neg (by simp)]
    have hdrop : ('\x7b' :: '\"' :: 'i' :: 'p' :: '\"' :: ':' :: '\"' ::
        (xl ++ ['\"', '\x7d'])).drop 7 = xl ++ ['\"', '\x7d'] := rfl
    rw [hdrop]
    have harith : ((xl ++ ['\"', '\x7d']).length + 2 ^ 64 - 2) % 2 ^ 64 = xl.length := by
      simp only [List.length_append, List.length_cons, List.length_nil]
      have : xl.length + (0 + 1 + 1) + 2 ^ 64 - 2 = xl.length + 2 ^ 64 := by omega
      rw [this, Nat.add_mod_right]
      exact Nat.mod_eq_of_lt hX
    rw [harith, List.take_left]
  · intro json i hfind hle hlt
    simp only [extractIP, hfind]
    rw [Nat.mod_eq_of_lt hlt]
    rw [if_neg (by omega)]

/-- C10 witness: the shape claim applied to the IP `1.2.3.4`. -/
theorem c10_extract_is_raw_slice_witness :
    ("1.2.3.4" : String).length < 2 ^ 64 ∧
    extractIP ("\x7b\"ip\":\"" ++ "1.2.3.4" ++ "\"\x7d") = some "1.2.3.4" :=
  ⟨by decide, c10_extract_is_raw_slice.1 "1.2.3.4" (by decide)⟩

end CFUpdater
